import Mathlib

/-!
Verification of the SmartGateSystem repository (src/app.py): a shallow
embedding of the plate-normalization routine, the OCR adapter, the plate
extraction pipeline (`process_upload`), the access decision route
(`detection`), the employee-registration handler (`dashboard`), and the
gate auto-close logic (`activate_gate` / `_auto_close_gate`), together
with theorems settling the specification's claims about them.
-/

namespace SmartGate

/-! ### Plate-text normalization

`app.py` line 106 and line 274: `re.sub(r'[^A-Z0-9]', '', s.upper())`.
Characters are modelled by their code points; `upChar` is ASCII
uppercasing (Python `str.upper` restricted to the ASCII range the
pipeline ever sees), `isPlateChar` is membership in `[A-Z0-9]`. -/

def upChar (c : Char) : Char :=
  if 97 ≤ c.toNat ∧ c.toNat ≤ 122 then Char.ofNat (c.toNat - 32) else c

def isPlateChar (c : Char) : Bool :=
  decide ((65 ≤ c.toNat ∧ c.toNat ≤ 90) ∨ (48 ≤ c.toNat ∧ c.toNat ≤ 57))

def normChars (l : List Char) : List Char :=
  (l.map upChar).filter isPlateChar

def normalize (s : String) : String :=
  ⟨normChars s.data⟩

lemma isPlateChar_upChar_eq (c : Char) (h : isPlateChar c = true) :
    upChar c = c := by
  simp only [isPlateChar, decide_eq_true_eq] at h
  unfold upChar
  rw [if_neg]
  omega

lemma normChars_mem_isPlateChar {c : Char} {l : List Char}
    (h : c ∈ normChars l) : isPlateChar c = true :=
  List.of_mem_filter h

lemma normChars_fixed {l : List Char} (h : ∀ c ∈ l, isPlateChar c = true) :
    normChars l = l := by
  unfold normChars
  rw [List.map_congr_left (fun c hc => isPlateChar_upChar_eq c (h c hc))]
  rw [show (fun c : Char => c) = id from rfl, List.map_id,
    List.filter_eq_self.mpr h]

lemma normChars_idem (l : List Char) :
    normChars (normChars l) = normChars l :=
  normChars_fixed (fun _ hc => normChars_mem_isPlateChar hc)

/-- Claim C5: plate-text normalization (uppercase, then strip every
character outside `[A-Z0-9]`) is idempotent — re-normalizing the result
of a normalization (and hence any already-normalized string, i.e. any
string all of whose characters are in `[A-Z0-9]`) leaves it unchanged —
and normalizing the concrete input `"ab-12 34!"` yields `"AB1234"`. -/
theorem normalize_idempotent :
    (∀ s : String, normalize (normalize s) = normalize s)
    ∧ (∀ s : String, (∀ c ∈ s.data, isPlateChar c = true) → normalize s = s)
    ∧ normalize "ab-12 34!" = "AB1234" := by
  refine ⟨fun s => ?_, fun s h => ?_, by decide⟩
  · show (⟨normChars (normChars s.data)⟩ : String) = ⟨normChars s.data⟩
    rw [normChars_idem]
  · show (⟨normChars s.data⟩ : String) = s
    rw [normChars_fixed h]

/-- Witness for C5: the hypothesis-bearing conjunct applied at the
concrete already-normalized string `"AB12"`. -/
theorem normalize_idempotent_witness :
    (∀ c ∈ ("AB12" : String).data, isPlateChar c = true)
    ∧ normalize "AB12" = "AB12" :=
  ⟨by decide, normalize_idempotent.2.1 "AB12" (by decide)⟩

/-! ### Recognizer adapter (`ocr_plate_text`, app.py lines 88–109)

The HTTP call and JSON parse are modelled by an `Except`-valued response:
`.error` covers every exception the `try` block catches (connection
failure, timeout, malformed JSON), in which case the function falls
through to `return None`.  An `OcrResponse` carries the truthiness of
`IsErroredOnProcessing` and the list of `ParsedText` fields of
`ParsedResults` (a missing `ParsedText` is the default `""`).  On the
success path the code takes the FIRST result's text, uppercases it and
strips non-alphanumerics (line 106) before returning. -/

abbrev Err := String

structure OcrResponse where
  isErrored : Bool
  parsedResults : List String
  deriving DecidableEq, Repr

def ocr_plate_text (resp : Except Err OcrResponse) : Option String :=
  match resp with
  | .error _ => none
  | .ok r =>
    if !r.isErrored && !r.parsedResults.isEmpty then
      some (normalize (r.parsedResults.headD ""))
    else
      none

/-! ### Plate extraction pipeline (`process_upload`, app.py lines 111–166)

Only the dimensions of a box's crop matter downstream, so a detected box
is modelled by its crop's height and width (`CropInfo`); numpy's
`plate_crop.size == 0` is `h * w = 0`.  The crop-width refinement
(line 151) is `int(w * 0.85)`, which for every width below 2^50 equals
the exact floor of `85 * w / 100` (the rounding error of the double
product is far smaller than the distance to the nearest integer), hence
`refineWidth` uses natural division.  The OCR step is a function from
the box's position in the detection list to the result of
`ocr_plate_text` on that box's refined crop.  `scanBoxes` is the loop of
lines 139–164: it returns the accepted plate text (if any) and the crop
artifact that survives — the refined dimensions of the last non-skipped
box written to `crop_<ts>.jpg`. -/

structure CropInfo where
  h : Nat
  w : Nat
  deriving DecidableEq, Repr

def refineWidth (w : Nat) : Nat := w * 85 / 100

def acceptable : Option String → Bool
  | some s => decide (2 < s.length)
  | none => false

def scanBoxes (ocr : Nat → Option String) : Nat → List CropInfo →
    Option String × Option (Nat × Nat)
  | _, [] => (none, none)
  | i, c :: rest =>
    if c.h * c.w = 0 then
      scanBoxes ocr (i + 1) rest
    else if acceptable (ocr i) then
      (ocr i, some (c.h, refineWidth c.w))
    else
      let r := scanBoxes ocr (i + 1) rest
      (r.1, some (r.2.getD (c.h, refineWidth c.w)))

/-- `process_upload`: the upload is always saved first (the full-image
artifact exists unconditionally, so it is not threaded through).  If the
model failed to load, or `cv2.imread` returns `None` (unreadable image,
modelled by `img = none`), the function returns `(None, None)` for
(plate text, crop artifact).  The YOLO inference call on line 130 is NOT
inside any `try` block, so an exception it raises propagates to the
caller: the detector is `Except`-valued and its `.error` is re-raised. -/
def process_upload (modelAvailable : Bool) (img : Option Nat)
    (detect : Nat → Except Err (List CropInfo)) (ocr : Nat → Option String) :
    Except Err (Option String × Option (Nat × Nat)) :=
  if !modelAvailable then
    .ok (none, none)
  else
    match img with
    | none => .ok (none, none)
    | some im =>
      match detect im with
      | .error e => .error e
      | .ok boxes => .ok (scanBoxes ocr 0 boxes)

/-! ### Access decision route (`detection`, app.py lines 198–261)

The registry is the `plates ⋈ employees` join: a list of
`(plate_number, (employee_id, name))` rows; the SQL lookup with
`WHERE p.plate_number = ?` is `find?` on the plate key.  A `Decision`
records the context fields the route renders plus the access-log rows
appended (`logs`) and the number of `activate_gate()` calls
(`gateTriggers`).  Status and action tags are the literal strings of the
code; the GRANTED insert omits `action`, taking the SQL column default
`ENTRY`.  Python truthiness of `if text:` makes both `None` and `""`
take the default FAILED branch. -/

abbrev Registry := List (String × Nat × String)

def findEmployee (reg : Registry) (plate : String) : Option (Nat × String) :=
  (reg.find? (fun r => r.1 == plate)).map Prod.snd

structure LogEntry where
  employeeId : Option Nat
  plate : String
  action : String
  details : String
  deriving DecidableEq, Repr

structure Decision where
  status : String
  message : String
  gateTriggers : Nat
  logs : List LogEntry
  text : Option String
  deriving DecidableEq, Repr

def detectionDecide (reg : Registry) (text : Option String) : Decision :=
  match text with
  | none => ⟨"FAILED", "No Plate Detected", 0, [], none⟩
  | some s =>
    if s = "" then ⟨"FAILED", "No Plate Detected", 0, [], none⟩
    else
      match findEmployee reg s with
      | some (eid, nm) =>
        ⟨"GRANTED", "Authorized: " ++ nm, 1,
          [⟨some eid, s, "ENTRY", "Automated Entry"⟩], some s⟩
      | none =>
        ⟨"DENIED", "Unregistered Vehicle", 0,
          [⟨none, s, "DENIED", "Unknown Vehicle"⟩], some s⟩

/-- The whole POST-with-file path of the `detection` route: run
`process_upload`, then classify.  `plateImage` is the crop artifact and
`fullSaved` records that the raw upload was persisted (always true on
this path — the save happens before anything can fail). -/
structure RouteCtx where
  status : String
  message : String
  gateTriggers : Nat
  logs : List LogEntry
  plateImage : Option (Nat × Nat)
  fullSaved : Bool
  deriving DecidableEq, Repr

def detectionRoute (reg : Registry) (modelAvailable : Bool) (img : Option Nat)
    (detect : Nat → Except Err (List CropInfo)) (ocr : Nat → Option String) :
    Except Err RouteCtx :=
  match process_upload modelAvailable img detect ocr with
  | .error e => .error e
  | .ok (text, crop) =>
    let d := detectionDecide reg text
    .ok ⟨d.status, d.message, d.gateTriggers, d.logs, crop, true⟩

/-! ### Employee registration (`dashboard`, app.py lines 269–281)

The employee row is inserted unconditionally; the plate row only when
the normalized plate string is truthy (non-empty). -/

structure EmployeeRow where
  name : String
  position : String
  deriving DecidableEq, Repr

def addEmployee (name pos rawPlate : String) : EmployeeRow × Option String :=
  (⟨name, pos⟩,
    if normalize rawPlate = "" then none else some (normalize rawPlate))

/-! ### Gate auto-close (`activate_gate` / `_auto_close_gate`,
app.py lines 169–178)

`activate_gate()` sets `is_open = True` and spawns a detached thread
that sleeps `DELAY = 10` seconds and then sets `is_open = False`
UNCONDITIONALLY — nothing cancels or supersedes an armed timer.  A run
of the system with trigger calls at given times is therefore the
chronological sequence of events consisting of each trigger (which
opens the gate) and, 10 units after each trigger, that trigger's timer
expiry (which closes it).  `gateOpenAt triggers q` replays every event
with timestamp `≤ q` in time order and reports the `is_open` flag. -/

def DELAY : Nat := 10

inductive GateEvent
  | trig
  | close
  deriving DecidableEq, Repr

def stepGate (_s : Bool) (e : GateEvent) : Bool :=
  match e with
  | .trig => true
  | .close => false

def insertByTime (p : Nat × GateEvent) :
    List (Nat × GateEvent) → List (Nat × GateEvent)
  | [] => [p]
  | q :: rest => if p.1 < q.1 then p :: q :: rest else q :: insertByTime p rest

def sortByTime (l : List (Nat × GateEvent)) : List (Nat × GateEvent) :=
  l.foldr insertByTime []

def gateTrace (triggers : List Nat) : List (Nat × GateEvent) :=
  sortByTime
    ((triggers.map fun t => (t, GateEvent.trig))
      ++ (triggers.map fun t => (t + DELAY, GateEvent.close)))

def gateOpenAt (triggers : List Nat) (q : Nat) : Bool :=
  ((gateTrace triggers).filter (fun p => p.1 ≤ q)).foldl
    (fun s p => stepGate s p.2) false

/-! ### Theorems -/

/-- Claim C1 (refuted — the code has a bug): the spec demands that with
triggers at t0 < … < tn and delay D the gate stays open continuously
from t0 until tn + D, the most recent trigger always winning.  In the
code each `activate_gate()` spawns an independent thread that closes the
gate unconditionally after 10 seconds, so with triggers at t = 0 and
t = 6 the first trigger's timer fires at t = 10 and closes the gate,
although the claim requires it to be open until t = 6 + DELAY = 16: the
gate is open at t = 5 but already closed at t = 11 < 16. -/
theorem gate_premature_close :
    gateOpenAt [0, 6] 5 = true
    ∧ gateOpenAt [0, 6] 11 = false
    ∧ 11 < 6 + DELAY := by
  decide

/-- Claim C10: when the supplied plate string normalizes to the empty
string, the employee row is still created with the given name and
position, but no plate mapping is inserted. -/
theorem addEmployee_empty_plate (name pos raw : String)
    (h : normalize raw = "") :
    addEmployee name pos raw = (⟨name, pos⟩, none) := by
  unfold addEmployee
  rw [h]
  rfl

/-- Witness for C10: the plate field `"--!  "` has no alphanumeric
character, so the employee is registered without a plate. -/
theorem addEmployee_empty_plate_witness :
    normalize "--!  " = ""
    ∧ addEmployee "Ann" "Engineer" "--!  " = (⟨"Ann", "Engineer"⟩, none) :=
  ⟨by decide, addEmployee_empty_plate "Ann" "Engineer" "--!  " (by decide)⟩

/-- Counterexample to claim C6: the claim says the recognizer adapter
returns the first result's parsed text RAW, without normalization.  On
a successful response whose first parsed text is `"ab-12 34!"`,
`ocr_plate_text` returns `"AB1234"` — the normalized text, not the raw
one. -/
theorem ocr_adapter_not_raw :
    ocr_plate_text (Except.ok ⟨false, ["ab-12 34!"]⟩) = some "AB1234"
    ∧ some "AB1234" ≠ some ("ab-12 34!" : String) := by
  exact ⟨by decide, by decide⟩

/-- Claim C6 as amended: on a successful OCR response (no
service-reported processing error and a non-empty result list) the
adapter extracts the parsed text of the FIRST result only and returns
it already normalized — uppercased with all characters outside
`[A-Z0-9]` stripped (normalization happens inside the adapter, line 106
of app.py, not in the pipeline). -/
theorem ocr_adapter_first_normalized (r : OcrResponse)
    (h1 : r.isErrored = false) (h2 : r.parsedResults ≠ []) :
    ocr_plate_text (Except.ok r) = some (normalize (r.parsedResults.headD "")) := by
  cases hl : r.parsedResults with
  | nil => exact absurd hl h2
  | cons a l =>
    simp [ocr_plate_text, h1, hl]

/-- Witness for C6's amended theorem at a concrete successful
response. -/
theorem ocr_adapter_first_normalized_witness :
    ((false : Bool) = false ∧ (["ab-12 34!", "zz"] : List String) ≠ [])
    ∧ ocr_plate_text (Except.ok ⟨false, ["ab-12 34!", "zz"]⟩) =
        some (normalize "ab-12 34!") :=
  ⟨⟨rfl, by decide⟩,
    ocr_adapter_first_normalized ⟨false, ["ab-12 34!", "zz"]⟩ rfl (by decide)⟩

/-- Counterexample to claim C3: the claim says the extraction pipeline
never raises to its caller, in particular when the detection call
raises.  The YOLO inference call on line 130 of app.py is not inside
any `try` block, so when the detector raises, `process_upload`
propagates the exception instead of returning a result tuple. -/
theorem process_upload_propagates :
    process_upload true (some 0) (fun _ => Except.error "boom")
      (fun _ => none) = Except.error "boom" := rfl

/-- Claim C3 as amended: when the detector model is unavailable (failed
to load) or the image is unreadable, `process_upload` returns no
candidate and no crop without error; when the detection call succeeds
the pipeline completes normally (recognizer failures having been
absorbed into `none` by `ocr_plate_text`'s own handler); but when the
detection call itself raises, the exception propagates to the
caller. -/
theorem process_upload_amended :
    (∀ img detect ocr, process_upload false img detect ocr =
        Except.ok (none, none))
    ∧ (∀ detect ocr, process_upload true none detect ocr =
        Except.ok (none, none))
    ∧ (∀ im detect ocr boxes, detect im = Except.ok boxes →
        process_upload true (some im) detect ocr =
          Except.ok (scanBoxes ocr 0 boxes))
    ∧ (∀ im detect ocr e, detect im = Except.error e →
        process_upload true (some im) detect ocr = Except.error e) := by
  refine ⟨fun img detect ocr => rfl, fun detect ocr => rfl,
    fun im detect ocr boxes h => ?_, fun im detect ocr e h => ?_⟩
  · simp [process_upload, h]
  · simp [process_upload, h]

/-- Witness for C3's amended theorem: the success and error conjuncts
applied at concrete detectors. -/
theorem process_upload_amended_witness :
    ((fun _ : Nat => Except.ok (ε := Err) ([] : List CropInfo)) 0 =
        Except.ok [])
    ∧ process_upload true (some 0) (fun _ => Except.ok [])
        (fun _ => none) = Except.ok (scanBoxes (fun _ => none) 0 [])
    ∧ ((fun _ : Nat => Except.error (α := List CropInfo) "down") 0 =
        Except.error "down")
    ∧ process_upload true (some 0) (fun _ => Except.error "down")
        (fun _ => none) = Except.error "down" :=
  ⟨rfl,
    process_upload_amended.2.2.1 0 (fun _ => Except.ok []) (fun _ => none)
      [] rfl,
    rfl,
    process_upload_amended.2.2.2 0 (fun _ => Except.error "down")
      (fun _ => none) "down" rfl⟩

/-- Claim C2: a present candidate found in the registry yields GRANTED
with exactly one ENTRY log append and exactly one gate trigger; a
present candidate not found yields DENIED with exactly one DENIED log
append and zero gate triggers; an absent candidate yields FAILED with
message "No Plate Detected" and zero log appends and zero triggers.
(A pipeline candidate is never the empty string — its length exceeds 2 —
so `hs` states presence in the sense of Python truthiness.) -/
theorem detection_decision_cases (reg : Registry) (s : String)
    (hs : s ≠ "") :
    (detectionDecide reg none =
      ⟨"FAILED", "No Plate Detected", 0, [], none⟩)
    ∧ (∀ eid nm, findEmployee reg s = some (eid, nm) →
        detectionDecide reg (some s) =
          ⟨"GRANTED", "Authorized: " ++ nm, 1,
            [⟨some eid, s, "ENTRY", "Automated Entry"⟩], some s⟩)
    ∧ (findEmployee reg s = none →
        detectionDecide reg (some s) =
          ⟨"DENIED", "Unregistered Vehicle", 0,
            [⟨none, s, "DENIED", "Unknown Vehicle"⟩], some s⟩) := by
  refine ⟨rfl, fun eid nm h => ?_, fun h => ?_⟩
  · simp [detectionDecide, hs, h]
  · simp [detectionDecide, hs, h]

def demoRegistry : Registry := [("AB123", (1, "Bob"))]

/-- Witness for C2: the GRANTED and DENIED branches at a concrete
one-row registry, and the FAILED branch, all evaluated. -/
theorem detection_decision_cases_witness :
    (("AB123" : String) ≠ ""
      ∧ findEmployee demoRegistry "AB123" = some (1, "Bob")
      ∧ detectionDecide demoRegistry (some "AB123") =
          ⟨"GRANTED", "Authorized: Bob", 1,
            [⟨some 1, "AB123", "ENTRY", "Automated Entry"⟩], some "AB123"⟩)
    ∧ (("ZZ999" : String) ≠ ""
      ∧ findEmployee demoRegistry "ZZ999" = none
      ∧ detectionDecide demoRegistry (some "ZZ999") =
          ⟨"DENIED", "Unregistered Vehicle", 0,
            [⟨none, "ZZ999", "DENIED", "Unknown Vehicle"⟩], some "ZZ999"⟩)
    ∧ detectionDecide demoRegistry none =
        ⟨"FAILED", "No Plate Detected", 0, [], none⟩ :=
  ⟨⟨by decide, by decide,
      (detection_decision_cases demoRegistry "AB123" (by decide)).2.1 1 "Bob"
        (by decide)⟩,
    ⟨by decide, by decide,
      (detection_decision_cases demoRegistry "ZZ999" (by decide)).2.2
        (by decide)⟩,
    (detection_decision_cases demoRegistry "X" (by decide)).1⟩

/-! ### The candidate-selection loop, spec-side description

`specFirstCandidate` is a second definition written from the spec's
words for the refinement claim C4: iterating over the detected boxes in
order with their positions, the candidate is the OCR text of the first
box that has a non-degenerate crop and whose (already normalized) text
has length > 2; if there is no such box there is no candidate. -/

def specFirstCandidate (ocr : Nat → Option String) (i : Nat)
    (boxes : List CropInfo) : Option String :=
  ((List.enumFrom i boxes).find?
      (fun p => decide (p.2.h * p.2.w ≠ 0) && acceptable (ocr p.1))).bind
    (fun p => ocr p.1)

lemma scanBoxes_fst_eq_spec (ocr : Nat → Option String) :
    ∀ (boxes : List CropInfo) (i : Nat),
      (scanBoxes ocr i boxes).1 = specFirstCandidate ocr i boxes := by
  intro boxes
  induction boxes with
  | nil => intro i; rfl
  | cons c rest ih =>
    intro i
    by_cases hz : c.h * c.w = 0
    · simp [scanBoxes, specFirstCandidate, hz, List.find?] at ih ⊢
      exact ih (i + 1)
    · by_cases ha : acceptable (ocr i) = true
      · simp [scanBoxes, specFirstCandidate, hz, ha, List.find?]
      · simp only [Bool.not_eq_true] at ha
        simp [scanBoxes, specFirstCandidate, hz, ha, List.find?] at ih ⊢
        exact ih (i + 1)

lemma scanBoxes_fst_length (ocr : Nat → Option String) :
    ∀ (boxes : List CropInfo) (i : Nat) (s : String),
      (scanBoxes ocr i boxes).1 = some s → 2 < s.length := by
  intro boxes
  induction boxes with
  | nil => intro i s h; exact absurd h (by simp [scanBoxes])
  | cons c rest ih =>
    intro i s h
    by_cases hz : c.h * c.w = 0
    · rw [show scanBoxes ocr i (c :: rest) = scanBoxes ocr (i + 1) rest by
        simp [scanBoxes, hz]] at h
      exact ih (i + 1) s h
    · by_cases ha : acceptable (ocr i) = true
      · rw [show scanBoxes ocr i (c :: rest) =
            (ocr i, some (c.h, refineWidth c.w)) by
          simp [scanBoxes, hz, ha]] at h
        simp only at h
        rw [h] at ha
        simpa [acceptable] using ha
      · simp only [Bool.not_eq_true] at ha
        rw [show scanBoxes ocr i (c :: rest) =
            ((scanBoxes ocr (i + 1) rest).1,
              some ((scanBoxes ocr (i + 1) rest).2.getD
                (c.h, refineWidth c.w))) by
          simp [scanBoxes, hz, ha]] at h
        exact ih (i + 1) s h

/-- Claim C4: the pipeline's candidate is exactly the (already
normalized) OCR text of the first box, in detector order, whose crop is
non-degenerate and whose text has normalized length > 2 — iteration
stopping there — and every accepted candidate has length > 2, so texts
of length ≤ 2 never reach the decision stage; when no box qualifies the
candidate is `none` (the `specFirstCandidate` equation). -/
theorem pipeline_first_candidate (ocr : Nat → Option String)
    (boxes : List CropInfo) (i : Nat) :
    (scanBoxes ocr i boxes).1 = specFirstCandidate ocr i boxes
    ∧ (∀ s, (scanBoxes ocr i boxes).1 = some s → 2 < s.length) :=
  ⟨scanBoxes_fst_eq_spec ocr boxes i,
    fun s h => scanBoxes_fst_length ocr boxes i s h⟩

def demoOcr : Nat → Option String
  | 0 => some "A1"
  | 1 => some "ABC123"
  | _ => none

def demoBoxes : List CropInfo := [⟨4, 10⟩, ⟨4, 12⟩, ⟨4, 14⟩]

/-- Witness for C4: with the first box's text `"A1"` (length ≤ 2,
discarded) and the second box's text `"ABC123"`, the candidate is
`"ABC123"` and its length exceeds 2. -/
theorem pipeline_first_candidate_witness :
    (scanBoxes demoOcr 0 demoBoxes).1 = some "ABC123"
    ∧ (scanBoxes demoOcr 0 demoBoxes).1 = specFirstCandidate demoOcr 0 demoBoxes
    ∧ 2 < ("ABC123" : String).length :=
  ⟨by decide, (pipeline_first_candidate demoOcr demoBoxes 0).1,
    (pipeline_first_candidate demoOcr demoBoxes 0).2 "ABC123" (by decide)⟩

/-! ### Crop refinement (claim C7) -/

lemma refineWidth_floor (w : Nat) : ⌊(w : ℚ) * 0.85⌋₊ = refineWidth w := by
  have h := Nat.floor_div_eq_div (α := ℚ) (w * 85) 100
  push_cast at h
  rw [show (0.85 : ℚ) = 85 / 100 by norm_num, ← mul_div_assoc]
  exact h

lemma scanBoxes_snd_mem (ocr : Nat → Option String) :
    ∀ (boxes : List CropInfo) (i hh ww : Nat),
      (scanBoxes ocr i boxes).2 = some (hh, ww) →
      ∃ c ∈ boxes, c.h * c.w ≠ 0 ∧ hh = c.h ∧ ww = refineWidth c.w := by
  intro boxes
  induction boxes with
  | nil => intro i hh ww h; exact absurd h (by simp [scanBoxes])
  | cons c rest ih =>
    intro i hh ww h
    by_cases hz : c.h * c.w = 0
    · rw [show scanBoxes ocr i (c :: rest) = scanBoxes ocr (i + 1) rest by
        simp [scanBoxes, hz]] at h
      obtain ⟨d, hd, hprop⟩ := ih (i + 1) hh ww h
      exact ⟨d, List.mem_cons_of_mem _ hd, hprop⟩
    · by_cases ha : acceptable (ocr i) = true
      · rw [show scanBoxes ocr i (c :: rest) =
            (ocr i, some (c.h, refineWidth c.w)) by simp [scanBoxes, hz, ha]]
          at h
        have h' : (c.h, refineWidth c.w) = (hh, ww) := by injection h
        rw [Prod.ext_iff] at h'
        exact ⟨c, List.mem_cons_self c rest, hz, h'.1.symm, h'.2.symm⟩
      · simp only [Bool.not_eq_true] at ha
        rw [show scanBoxes ocr i (c :: rest) =
            ((scanBoxes ocr (i + 1) rest).1,
              some ((scanBoxes ocr (i + 1) rest).2.getD
                (c.h, refineWidth c.w))) by simp [scanBoxes, hz, ha]] at h
        cases hr : (scanBoxes ocr (i + 1) rest).2 with
        | none =>
          rw [hr] at h
          have h' : (c.h, refineWidth c.w) = (hh, ww) := by injection h
          rw [Prod.ext_iff] at h'
          exact ⟨c, List.mem_cons_self c rest, hz, h'.1.symm, h'.2.symm⟩
        | some d =>
          rw [hr] at h
          have h' : d = (hh, ww) := by injection h
          obtain ⟨e, he, hprop⟩ := ih (i + 1) hh ww (by rw [hr, h'])
          exact ⟨e, List.mem_cons_of_mem _ he, hprop⟩

lemma scanBoxes_snd_none (ocr : Nat → Option String) :
    ∀ (boxes : List CropInfo) (i : Nat),
      (∀ c ∈ boxes, c.h * c.w = 0) → (scanBoxes ocr i boxes).2 = none := by
  intro boxes
  induction boxes with
  | nil => intro i _; rfl
  | cons c rest ih =>
    intro i h
    rw [show scanBoxes ocr i (c :: rest) = scanBoxes ocr (i + 1) rest by
      simp [scanBoxes, h c (List.mem_cons_self c rest)]]
    exact ih (i + 1) (fun d hd => h d (List.mem_cons_of_mem _ hd))

/-- Claim C7: the width refinement keeps the left `⌊w * 0.85⌋` columns of
a crop of width `w` (`refineWidth`, exactly `int(w * 0.85)` of the
code); every crop artifact the loop persists and submits to recognition
comes from a box whose crop has nonzero area and carries that refined
width; and when every box's crop has zero area, all boxes are skipped
and no crop artifact is produced. -/
theorem crop_refinement (ocr : Nat → Option String) (boxes : List CropInfo)
    (i : Nat) :
    (∀ w : Nat, ⌊(w : ℚ) * 0.85⌋₊ = refineWidth w)
    ∧ (∀ hh ww, (scanBoxes ocr i boxes).2 = some (hh, ww) →
        ∃ c ∈ boxes, c.h * c.w ≠ 0 ∧ hh = c.h ∧ ww = refineWidth c.w)
    ∧ ((∀ c ∈ boxes, c.h * c.w = 0) → (scanBoxes ocr i boxes).2 = none) :=
  ⟨refineWidth_floor,
    fun hh ww h => scanBoxes_snd_mem ocr boxes i hh ww h,
    fun h => scanBoxes_snd_none ocr boxes i h⟩

def zeroBoxes : List CropInfo := [⟨0, 5⟩, ⟨3, 0⟩]

/-- Witness for C7: on `demoBoxes` the surviving crop artifact is the
accepted second box's crop `(4, 10)` with `10 = refineWidth 12`; on
`zeroBoxes`, whose crops all have zero area, no crop artifact is
produced. -/
theorem crop_refinement_witness :
    ((scanBoxes demoOcr 0 demoBoxes).2 = some (4, 10)
      ∧ ∃ c ∈ demoBoxes, c.h * c.w ≠ 0 ∧ 4 = c.h ∧ 10 = refineWidth c.w)
    ∧ ((∀ c ∈ zeroBoxes, c.h * c.w = 0)
      ∧ (scanBoxes demoOcr 0 zeroBoxes).2 = none) :=
  ⟨⟨by decide, (crop_refinement demoOcr demoBoxes 0).2.1 4 10 (by decide)⟩,
    ⟨by decide, (crop_refinement demoOcr zeroBoxes 0).2.2 (by decide)⟩⟩

/-! ### Normalization invariant (claim C9) -/

def isNormalizedB (s : String) : Bool := s.data.all isPlateChar

lemma normalize_isNormalizedB (s : String) :
    isNormalizedB (normalize s) = true := by
  simp only [isNormalizedB, List.all_eq_true]
  intro c hc
  exact normChars_mem_isPlateChar hc

lemma ocr_plate_text_normalized (resp : Except Err OcrResponse)
    (s : String) (h : ocr_plate_text resp = some s) :
    isNormalizedB s = true := by
  cases resp with
  | error e => exact absurd h (by simp [ocr_plate_text])
  | ok r =>
    simp only [ocr_plate_text] at h
    split at h
    · have h' : normalize (r.parsedResults.headD "") = s := by injection h
      rw [← h']
      exact normalize_isNormalizedB _
    · exact absurd h (by simp)

lemma scanBoxes_fst_from_ocr (ocr : Nat → Option String) :
    ∀ (boxes : List CropInfo) (i : Nat) (s : String),
      (scanBoxes ocr i boxes).1 = some s → ∃ j, ocr j = some s := by
  intro boxes
  induction boxes with
  | nil => intro i s h; exact absurd h (by simp [scanBoxes])
  | cons c rest ih =>
    intro i s h
    by_cases hz : c.h * c.w = 0
    · rw [show scanBoxes ocr i (c :: rest) = scanBoxes ocr (i + 1) rest by
        simp [scanBoxes, hz]] at h
      exact ih (i + 1) s h
    · by_cases ha : acceptable (ocr i) = true
      · rw [show scanBoxes ocr i (c :: rest) =
            (ocr i, some (c.h, refineWidth c.w)) by simp [scanBoxes, hz, ha]]
          at h
        exact ⟨i, h⟩
      · simp only [Bool.not_eq_true] at ha
        rw [show scanBoxes ocr i (c :: rest) =
            ((scanBoxes ocr (i + 1) rest).1,
              some ((scanBoxes ocr (i + 1) rest).2.getD
                (c.h, refineWidth c.w))) by simp [scanBoxes, hz, ha]] at h
        exact ih (i + 1) s h

/-- Claim C9: every plate text that is stored by employee registration,
returned by the recognizer adapter, or produced as the pipeline's
lookup candidate is uppercase and contains only characters in
`[A-Z0-9]` (they are all images of `normalize`, whose output consists
of such characters only). -/
theorem plate_text_invariant (name pos raw : String)
    (resp : Except Err OcrResponse)
    (resps : Nat → Except Err OcrResponse)
    (boxes : List CropInfo) (i : Nat) :
    (∀ p, (addEmployee name pos raw).2 = some p → isNormalizedB p = true)
    ∧ (∀ s, ocr_plate_text resp = some s → isNormalizedB s = true)
    ∧ (∀ s,
        (scanBoxes (fun j => ocr_plate_text (resps j)) i boxes).1 = some s →
        isNormalizedB s = true) := by
  refine ⟨fun p h => ?_, fun s h => ocr_plate_text_normalized resp s h,
    fun s h => ?_⟩
  · simp only [addEmployee] at h
    split at h
    · exact Option.noConfusion h
    · have h' : normalize raw = p := by injection h
      rw [← h']
      exact normalize_isNormalizedB _
  · obtain ⟨j, hj⟩ := scanBoxes_fst_from_ocr _ boxes i s h
    exact ocr_plate_text_normalized (resps j) s hj

def demoResp : Except Err OcrResponse := Except.ok ⟨false, ["xy-9 9z!"]⟩

def demoResps : Nat → Except Err OcrResponse := fun _ => demoResp

/-- Witness for C9: a registered plate, an adapter result and a pipeline
candidate at concrete inputs, each evaluated and normalized. -/
theorem plate_text_invariant_witness :
    ((addEmployee "Ann" "Engineer" "ab-12 34!").2 = some "AB1234"
      ∧ isNormalizedB "AB1234" = true)
    ∧ (ocr_plate_text demoResp = some "XY99Z"
      ∧ isNormalizedB "XY99Z" = true)
    ∧ ((scanBoxes (fun j => ocr_plate_text (demoResps j)) 0 demoBoxes).1 =
        some "XY99Z") :=
  ⟨⟨by decide,
      (plate_text_invariant "Ann" "Engineer" "ab-12 34!" demoResp demoResps
        demoBoxes 0).1 "AB1234" (by decide)⟩,
    ⟨by decide,
      (plate_text_invariant "Ann" "Engineer" "ab-12 34!" demoResp demoResps
        demoBoxes 0).2.1 "XY99Z" (by decide)⟩,
    by decide⟩

/-! ### Route totality (claim C8) -/

lemma detectionDecide_status (reg : Registry) (t : Option String) :
    (detectionDecide reg t).status = "GRANTED"
    ∨ (detectionDecide reg t).status = "DENIED"
    ∨ (detectionDecide reg t).status = "FAILED" := by
  cases t with
  | none => exact Or.inr (Or.inr rfl)
  | some s =>
    by_cases hs : s = ""
    · subst hs
      exact Or.inr (Or.inr rfl)
    · cases hf : findEmployee reg s with
      | none =>
        have hd : detectionDecide reg (some s) =
            ⟨"DENIED", "Unregistered Vehicle", 0,
              [⟨none, s, "DENIED", "Unknown Vehicle"⟩], some s⟩ := by
          simp [detectionDecide, hs, hf]
        rw [hd]
        exact Or.inr (Or.inl rfl)
      | some v =>
        obtain ⟨eid, nm⟩ := v
        have hd : detectionDecide reg (some s) =
            ⟨"GRANTED", "Authorized: " ++ nm, 1,
              [⟨some eid, s, "ENTRY", "Automated Entry"⟩], some s⟩ := by
          simp [detectionDecide, hs, hf]
        rw [hd]
        exact Or.inl rfl

/-- Counterexample to claim C8: the claim says that for EVERY upload
request the user-visible outcome is one of the three decision statuses,
never an indeterminate result.  When the detection call raises (it is
outside any `try` block, app.py line 130, and the `detection` route has
none either), the exception propagates through the route and no
decision status is rendered at all. -/
theorem route_propagates :
    detectionRoute [] true (some 0) (fun _ => Except.error "crash")
      (fun _ => none) = Except.error "crash" := rfl

/-- Claim C8 as amended: every upload request on which the detection
call does not raise renders one of the three decision statuses GRANTED,
DENIED, FAILED; an invalid upload — an empty or unreadable image, on
which `cv2.imread` yields `None` — immediately yields FAILED with
message "No Plate Detected", no log writes, no gate trigger and no crop
artifact, the raw upload having been saved best-effort beforehand; but
when the detection call raises, the exception propagates through the
route and no decision status is rendered. -/
theorem route_outcome (reg : Registry) (mA : Bool) (img : Option Nat)
    (detect : Nat → Except Err (List CropInfo)) (ocr : Nat → Option String) :
    (∀ ctx, detectionRoute reg mA img detect ocr = Except.ok ctx →
      ctx.status = "GRANTED" ∨ ctx.status = "DENIED"
        ∨ ctx.status = "FAILED")
    ∧ (img = none →
        detectionRoute reg mA img detect ocr =
          Except.ok ⟨"FAILED", "No Plate Detected", 0, [], none, true⟩)
    ∧ (∀ im e, detect im = Except.error e →
        detectionRoute reg true (some im) detect ocr = Except.error e) := by
  refine ⟨?_, ?_, ?_⟩
  · intro ctx h
    unfold detectionRoute at h
    cases hpu : process_upload mA img detect ocr with
    | error e => rw [hpu] at h; exact absurd h (by simp)
    | ok pr =>
      rw [hpu] at h
      obtain ⟨t, crop⟩ := pr
      have h2 : Except.ok (ε := Err)
          (RouteCtx.mk (detectionDecide reg t).status
            (detectionDecide reg t).message
            (detectionDecide reg t).gateTriggers
            (detectionDecide reg t).logs crop true) = Except.ok ctx := h
      have h3 : RouteCtx.mk (detectionDecide reg t).status
          (detectionDecide reg t).message
          (detectionDecide reg t).gateTriggers
          (detectionDecide reg t).logs crop true = ctx := by
        injection h2
      rw [← h3]
      exact detectionDecide_status reg t
  · intro h
    subst h
    cases mA with
    | false => rfl
    | true => rfl
  · intro im e h
    simp [detectionRoute, process_upload, h]

/-- Witness for C8's amended theorem: a concrete request with an
unreadable image — the route completes with status FAILED, which is
one of the three decision statuses, with no logs, no trigger and no
crop artifact — and a concrete request whose detection call raises,
on which the route propagates the exception. -/
theorem route_outcome_witness :
    ((none : Option Nat) = none)
    ∧ detectionRoute [] true none (fun _ => Except.ok [])
        (fun _ => none) =
        Except.ok ⟨"FAILED", "No Plate Detected", 0, [], none, true⟩
    ∧ (("FAILED" : String) = "GRANTED" ∨ ("FAILED" : String) = "DENIED"
        ∨ ("FAILED" : String) = "FAILED")
    ∧ ((fun _ : Nat => Except.error (α := List CropInfo) "down") 0 =
        Except.error "down")
    ∧ detectionRoute [] true (some 0) (fun _ => Except.error "down")
        (fun _ => none) = Except.error "down" := by
  have h := route_outcome [] true none (fun _ => Except.ok [])
    (fun _ => none)
  have hp := route_outcome [] true (some 0)
    (fun _ => Except.error "down") (fun _ => none)
  refine ⟨rfl, h.2.1 rfl, ?_, rfl, hp.2.2 0 "down" rfl⟩
  exact h.1 ⟨"FAILED", "No Plate Detected", 0, [], none, true⟩ (h.2.1 rfl)

end SmartGate
